import Mathlib

/-!
# Verification of the Currency_Exchange command-line client

A shallow embedding of `src/main.py` (class `CurrencyExchange` and the
interactive `main` shell) together with proofs about it.

Modelling conventions:

* JSON values are the inductive `JValue`.  JSON numbers carry the decimal
  text that Python would print for them (`repr`), since the program only
  passes numbers through verbatim; it never computes with them.
* A `requests` HTTP response is `Response`: its integer `status_code` and
  the result of calling `.json()` on it — `none` models a body on which
  `.json()` raises.
* Python exceptions that the program does not catch (`KeyError`, JSON
  decode errors, `ValueError` from `int`/`float`/unpacking, `EOFError`)
  are the `fault` constructor of `Outcome` / `MainOutcome`.
* Python `int(s)` and `float(s)` are modelled by `pyIntParse` and
  `pyFloatParse` (lexical acceptance follows CPython: surrounding
  whitespace, an optional sign, underscores between digits, and for
  floats an optional fraction, exponent, or `inf`/`nan` spelling).
  A Python float value is `PyFloat`, carrying the decimal text `str`
  would print for it; `pyFloatParse` canonicalises the accepted literal
  (shortest-round-trip printing is exact on literals of at most fifteen
  significant digits, which covers every concrete value used below).
-/

/-- A JSON value.  Numbers carry their decimal text (Python `repr`). -/
inductive JValue : Type where
  | null : JValue
  | bool : Bool → JValue
  | num : String → JValue
  | str : String → JValue
  | arr : List JValue → JValue
  | obj : List (String × JValue) → JValue

/-- Look a key up in a JSON object's field list (Python `dict` lookup;
objects produced by JSON decoding have pairwise-distinct keys). -/
def jlookup (k : String) : List (String × JValue) → Option JValue
  | [] => none
  | (k2, v) :: rest => if k2 = k then some v else jlookup k rest

/-- Hexadecimal digit for `\uXXXX` escapes (lower case, as Python emits). -/
def hexDigit (n : Nat) : Char :=
  if n < 10 then Char.ofNat (48 + n) else Char.ofNat (87 + n)

/-- Four-digit hexadecimal form of a code unit, as in `é`. -/
def hex4 (n : Nat) : String :=
  String.mk [hexDigit (n / 4096 % 16), hexDigit (n / 256 % 16),
             hexDigit (n / 16 % 16), hexDigit (n % 16)]

/-- Escape one character the way `json.dumps` (default `ensure_ascii=True`)
does inside a double-quoted JSON string. -/
def jsonEscapeChar (c : Char) : String :=
  if c = '"' then "\\\""
  else if c = '\\' then "\\\\"
  else if c = '\n' then "\\n"
  else if c = '\t' then "\\t"
  else if c = '\r' then "\\r"
  else if c = Char.ofNat 8 then "\\b"
  else if c = Char.ofNat 12 then "\\f"
  else if c.toNat < 32 ∨ c.toNat > 126 then
    if c.toNat < 65536 then "\\u" ++ hex4 c.toNat
    else
      let n := c.toNat - 65536
      "\\u" ++ hex4 (55296 + n / 1024) ++ "\\u" ++ hex4 (56320 + n % 1024)
  else String.singleton c

/-- A JSON string literal as `json.dumps` writes it. -/
def jsonQuote (s : String) : String :=
  "\"" ++ String.join (s.data.map jsonEscapeChar) ++ "\""

mutual

/-- `json.dumps(v, indent=2)` at nesting level `lvl` (the value itself is
written without leading spaces; `lvl` governs the members of `v`). -/
def jsonDumps2 (lvl : Nat) : JValue → String
  | .null => "null"
  | .bool true => "true"
  | .bool false => "false"
  | .num lit => lit
  | .str s => jsonQuote s
  | .arr [] => "[]"
  | .arr (e :: es) =>
      "[\n" ++ jsonDumpsItems (lvl + 1) e es ++
        "\n" ++ String.mk (List.replicate (2 * lvl) ' ') ++ "]"
  | .obj [] => "\x7b\x7d"
  | .obj ((k, v) :: fs) =>
      "\x7b\n" ++ jsonDumpsFields (lvl + 1) k v fs ++
        "\n" ++ String.mk (List.replicate (2 * lvl) ' ') ++ "\x7d"
termination_by v => sizeOf v
decreasing_by all_goals (simp_wf <;> omega)

/-- Comma-and-newline separated array items, each on its own indented line. -/
def jsonDumpsItems (lvl : Nat) (e : JValue) : List JValue → String
  | [] => String.mk (List.replicate (2 * lvl) ' ') ++ jsonDumps2 lvl e
  | e2 :: es =>
      String.mk (List.replicate (2 * lvl) ' ') ++ jsonDumps2 lvl e ++
        ",\n" ++ jsonDumpsItems lvl e2 es
termination_by es => 1 + sizeOf e + sizeOf es
decreasing_by all_goals (simp_wf <;> omega)

/-- Comma-and-newline separated object members, each on its own indented line. -/
def jsonDumpsFields (lvl : Nat) (k : String) (v : JValue) :
    List (String × JValue) → String
  | [] => String.mk (List.replicate (2 * lvl) ' ') ++ jsonQuote k ++
      ": " ++ jsonDumps2 lvl v
  | (k2, v2) :: fs =>
      String.mk (List.replicate (2 * lvl) ' ') ++ jsonQuote k ++
        ": " ++ jsonDumps2 lvl v ++ ",\n" ++ jsonDumpsFields lvl k2 v2 fs
termination_by fs => 1 + sizeOf v + sizeOf fs
decreasing_by all_goals (simp_wf <;> omega)

end

/-- `json.dumps(v, indent=2)`, as called by the client on `conversion_rates`. -/
def pyJsonDumpsIndent2 (v : JValue) : String := jsonDumps2 0 v

/-- Characters stripped by Python `str.strip()` (ASCII whitespace; the
program never feeds it non-ASCII whitespace). -/
def isPyWhitespace (c : Char) : Bool :=
  c == ' ' || c == '\t' || c == '\n' || c == '\r' ||
    c == Char.ofNat 11 || c == Char.ofNat 12

/-- `str.strip()` on a character list. -/
def pyStripChars (l : List Char) : List Char :=
  ((l.dropWhile (isPyWhitespace ·)).reverse.dropWhile (isPyWhitespace ·)).reverse

/-- Consume the longest valid CPython digit run (single underscores allowed
between digits only); accumulator holds the digits read so far, reversed. -/
def takeRunGo (acc : List Char) : List Char → List Char × List Char
  | '_' :: c :: cs =>
      if c.isDigit then takeRunGo (c :: acc) cs else (acc.reverse, '_' :: c :: cs)
  | c :: cs => if c.isDigit then takeRunGo (c :: acc) cs else (acc.reverse, c :: cs)
  | [] => (acc.reverse, [])

/-- Consume a nonempty digit run; `none` when the input does not start with
a digit.  Returns the digits (underscores removed) and the rest. -/
def takeDigitRun : List Char → Option (List Char × List Char)
  | c :: cs => if c.isDigit then some (takeRunGo [c] cs) else none
  | [] => none

/-- Numeric value of a list of decimal digits. -/
def natOfDigits (l : List Char) : Nat :=
  l.foldl (fun a c => 10 * a + (c.toNat - 48)) 0

/-- Python `int(s)` for a decimal string: strip whitespace, optional sign,
then a digit run that must span the whole remainder; `none` models the
`ValueError` CPython raises otherwise. -/
def pyIntParse (s : String) : Option Int :=
  let cs := pyStripChars s.data
  let signAndRest : Bool × List Char :=
    match cs with
    | '+' :: r => (false, r)
    | '-' :: r => (true, r)
    | r => (false, r)
  match takeDigitRun signAndRest.2 with
  | some (ds, []) =>
      some (if signAndRest.1 then -(natOfDigits ds : Int) else (natOfDigits ds : Int))
  | _ => none

/-- A Python `float` value, identified by the decimal text `str`/`repr`
prints for it (the program never computes with floats, it only
interpolates them into URLs and printed output). -/
structure PyFloat where
  repr : String
  deriving DecidableEq

/-- Canonical `repr` text of the float denoted by
`sign · 0.intD fracD · 10^expVal`-style literal parts, following CPython's
shortest-round-trip printing: plain notation when the decimal exponent of
the leading digit lies in `[-4, 15]`, scientific notation (two-digit,
signed exponent) outside it.  Exact for literals of at most fifteen
significant digits. -/
def pyFloatCanon (neg : Bool) (intD fracD : List Char) (expVal : Int) : String :=
  let D := intD ++ fracD
  let lz := (D.takeWhile (· = '0')).length
  let S0 := D.drop lz
  let p : Int := (intD.length : Int) + expVal - lz
  let S := (S0.reverse.dropWhile (· = '0')).reverse
  let sign := if neg then "-" else ""
  if S.isEmpty then sign ++ "0.0"
  else
    let E := p - 1
    if -4 ≤ E ∧ E ≤ 15 then
      if p ≤ 0 then
        sign ++ "0." ++ String.mk (List.replicate (-p).toNat '0') ++ String.mk S
      else if (S.length : Int) ≤ p then
        sign ++ String.mk S ++
          String.mk (List.replicate (p - (S.length : Int)).toNat '0') ++ ".0"
      else sign ++ String.mk (S.take p.toNat) ++ "." ++ String.mk (S.drop p.toNat)
    else
      let mant :=
        match S with
        | [] => ""
        | c :: [] => String.singleton c
        | c :: rest => String.singleton c ++ "." ++ String.mk rest
      let eAbs := E.natAbs
      let eStr := (if E < 0 then "-" else "+") ++
        (if eAbs < 10 then "0" ++ toString eAbs else toString eAbs)
      sign ++ mant ++ "e" ++ eStr

/-- Optional exponent part of a CPython float literal; the exponent's digit
run must span the whole remainder. -/
def floatExpPart (intD fracD : List Char) : List Char → Option (List Char × List Char × Int)
  | [] => some (intD, fracD, 0)
  | c :: cs =>
      if c = 'e' ∨ c = 'E' then
        let signAndRest : Int × List Char :=
          match cs with
          | '+' :: r => (1, r)
          | '-' :: r => (-1, r)
          | r => (1, r)
        match takeDigitRun signAndRest.2 with
        | some (eds, []) => some (intD, fracD, signAndRest.1 * (natOfDigits eds : Int))
        | _ => none
      else none

/-- Mantissa (and exponent) of a CPython float literal, after sign removal:
`digits`, `digits.`, `digits.digits` or `.digits`, then an optional
exponent. -/
def floatNumeric (l : List Char) : Option (List Char × List Char × Int) :=
  match l with
  | '.' :: cs =>
      match takeDigitRun cs with
      | some (frac, rest) => floatExpPart [] frac rest
      | none => none
  | _ =>
      match takeDigitRun l with
      | none => none
      | some (intD, rest) =>
          match rest with
          | '.' :: cs2 =>
              match takeDigitRun cs2 with
              | some (frac, rest2) => floatExpPart intD frac rest2
              | none => floatExpPart intD [] cs2
          | _ => floatExpPart intD [] rest

/-- Python `float(s)`: strip whitespace, optional sign, then either an
`inf`/`infinity`/`nan` spelling (case-insensitive) or a decimal literal
with optional fraction and exponent; `none` models the `ValueError`
CPython raises otherwise. -/
def pyFloatParse (s : String) : Option PyFloat :=
  let cs := pyStripChars s.data
  let signAndRest : Bool × List Char :=
    match cs with
    | '+' :: r => (false, r)
    | '-' :: r => (true, r)
    | r => (false, r)
  let low := String.mk (signAndRest.2.map Char.toLower)
  if low = "inf" ∨ low = "infinity" then
    some ⟨(if signAndRest.1 then "-inf" else "inf")⟩
  else if low = "nan" then some ⟨"nan"⟩
  else
    match floatNumeric signAndRest.2 with
    | some (intD, fracD, expVal) => some ⟨pyFloatCanon signAndRest.1 intD fracD expVal⟩
    | none => none

/-- The amount literals on which `pyFloatCanon` provably agrees with
CPython's `str(float(s))`: a decimal literal that is zero, or has at most
fifteen significant digits with the leading digit's decimal exponent in
`[-4, 15]`.  Such a value lies far inside the range of IEEE doubles (no
saturation to `inf` or underflow), a decimal of at most fifteen
significant digits survives the round trip through a double unchanged —
so its normalised form is also the shortest round-tripping decimal that
CPython prints — and that exponent range is exactly where CPython uses
plain (non-scientific) notation.  Outside this set (e.g. `1e400`, which
CPython saturates to `inf`, or `9007199254740993`, which CPython rounds
to the nearest double) the canonicalisation is not faithful, so theorems
about the interpolated float text are restricted to it. -/
def pyFloatLitSafe (s : String) : Bool :=
  let cs := pyStripChars s.data
  let rest : List Char :=
    match cs with
    | '+' :: r => r
    | '-' :: r => r
    | r => r
  match floatNumeric rest with
  | none => false
  | some (intD, fracD, expVal) =>
      let D := intD ++ fracD
      let lz := (D.takeWhile (· = '0')).length
      let S := ((D.drop lz).reverse.dropWhile (· = '0')).reverse
      let E : Int := (intD.length : Int) + expVal - lz - 1
      S.isEmpty || (decide (S.length ≤ 15) && decide (-4 ≤ E) && decide (E ≤ 15))

/-- The `requests` response received by the single outbound GET:
`status_code`, and the value `.json()` would return (`none` when `.json()`
would raise on an undecodable body). -/
structure Response where
  status_code : Int
  jsonBody : Option JValue

/-- A value a client method returns: a Python `str` (rates text or error
string) or the raw JSON field value extracted from the body. -/
inductive RetVal : Type where
  | vstr : String → RetVal
  | vjson : JValue → RetVal

/-- Normal return of a piece of code, or an exception it does not catch. -/
inductive Outcome (α : Type) : Type where
  | ret : α → Outcome α
  | fault : Outcome α

/-- `result.json()[key]`: `.json()` raises on an undecodable body; the
subscript raises `KeyError` on a missing key and `TypeError` on a
non-object value — none of these are caught. -/
def jsonField (r : Response) (key : String) : Outcome JValue :=
  match r.jsonBody with
  | none => .fault
  | some (.obj fields) =>
      match jlookup key fields with
      | some v => .ret v
      | none => .fault
  | some _ => .fault

/-- The `CurrencyExchange` client state: the API token and the base URL.
(`api.TOKEN_KEY` and `api.API_URL` live in the untracked `api` module —
process configuration, per the spec — so theorems quantify over them.) -/
structure CurrencyExchange where
  token : String
  url : String
  deriving DecidableEq

/-- `CurrencyExchange.__init__(token)` with `api.API_URL = apiUrl`. -/
def CurrencyExchange.init (token apiUrl : String) : CurrencyExchange :=
  { token := token, url := apiUrl }

/-- Everything one client method call does: the state of `self` when the
call ends, the URL passed to `requests.get`, and the value returned (or
the uncaught exception). -/
structure CallOutput where
  client : CurrencyExchange
  request : String
  outcome : Outcome RetVal

/-- `CurrencyExchange.get_ex_rates(currency)` receiving `result`. -/
def CurrencyExchange.get_ex_rates (self : CurrencyExchange) (currency : String)
    (result : Response) : CallOutput :=
  { client := self,
    request := s!"{self.url}{self.token}/latest/{currency}",
    outcome :=
      if result.status_code = 200 then
        match jsonField result "conversion_rates" with
        | .ret v => .ret (.vstr (pyJsonDumpsIndent2 v))
        | .fault => .fault
      else .ret (.vstr s!"Request error with status code: {result.status_code}") }

/-- `CurrencyExchange.get_ex_rate_for_currencies(convert_to, convert_from)`
receiving `result`.  Note the parameter order of the source: the first
positional argument is `convert_to`, the second `convert_from`, and the
URL puts `convert_from` first. -/
def CurrencyExchange.get_ex_rate_for_currencies (self : CurrencyExchange)
    (convert_to convert_from : String) (result : Response) : CallOutput :=
  { client := self,
    request := s!"{self.url}{self.token}/pair/{convert_from}/{convert_to}",
    outcome :=
      if result.status_code = 200 then
        match jsonField result "conversion_rate" with
        | .ret v => .ret (.vjson v)
        | .fault => .fault
      else .ret (.vstr s!"Request error with status code: {result.status_code}") }

/-- `CurrencyExchange.exchange_from_to(convert_from, convert_to, amount)`
receiving `result`; the f-string renders the float `amount` as
`str(amount)`, i.e. `amount.repr`. -/
def CurrencyExchange.exchange_from_to (self : CurrencyExchange)
    (convert_from convert_to : String) (amount : PyFloat) (result : Response) :
    CallOutput :=
  { client := self,
    request := s!"{self.url}{self.token}/pair/{convert_from}/{convert_to}/{amount.repr}",
    outcome :=
      if result.status_code = 200 then
        match jsonField result "conversion_result" with
        | .ret v => .ret (.vjson v)
        | .fault => .fault
      else .ret (.vstr s!"Request error with status code: {result.status_code}") }

/-- `CurrencyExchange.get_ex_rates_at_specific_date(currency, year, month,
day)` receiving `result`; the f-string renders each Python int with
`str`, i.e. `toString`. -/
def CurrencyExchange.get_ex_rates_at_specific_date (self : CurrencyExchange)
    (currency : String) (year month day : Int) (result : Response) : CallOutput :=
  { client := self,
    request := s!"{self.url}{self.token}/history/{currency}/{year}/{month}/{day}",
    outcome :=
      if result.status_code = 200 then
        match jsonField result "conversion_rates" with
        | .ret v => .ret (.vstr (pyJsonDumpsIndent2 v))
        | .fault => .fault
      else .ret (.vstr s!"Request error with status code: {result.status_code}") }

/-- One client method invocation, with its arguments and the response the
backend would serve it. -/
inductive OpCall : Type where
  | latest : String → Response → OpCall
  | pairRate : String → String → Response → OpCall
  | convertAmount : String → String → PyFloat → Response → OpCall
  | history : String → Int → Int → Int → Response → OpCall

/-- Dispatch one `OpCall` on a client. -/
def runCall (c : CurrencyExchange) : OpCall → CallOutput
  | .latest currency r => c.get_ex_rates currency r
  | .pairRate ct cf r => c.get_ex_rate_for_currencies ct cf r
  | .convertAmount cf ct a r => c.exchange_from_to cf ct a r
  | .history currency y m d r => c.get_ex_rates_at_specific_date currency y m d r

mutual

/-- Python `repr` of a decoded JSON value (the form used inside printed
containers): `None`/`True`/`False`, numbers by their text, strings in
single quotes (inner escaping simplified to plain quoting — the program
never prints strings containing quotes), dicts and lists in brace/bracket
notation. -/
def pyReprJValue : JValue → String
  | .null => "None"
  | .bool true => "True"
  | .bool false => "False"
  | .num lit => lit
  | .str s => String.singleton (Char.ofNat 39) ++ s ++ String.singleton (Char.ofNat 39)
  | .arr [] => "[]"
  | .arr (e :: es) => "[" ++ pyReprItems e es ++ "]"
  | .obj [] => "\x7b\x7d"
  | .obj ((k, v) :: fs) => "\x7b" ++ pyReprFields k v fs ++ "\x7d"
termination_by v => sizeOf v
decreasing_by all_goals (simp_wf <;> omega)

/-- Comma-separated `repr`s of list items. -/
def pyReprItems (e : JValue) : List JValue → String
  | [] => pyReprJValue e
  | e2 :: es => pyReprJValue e ++ ", " ++ pyReprItems e2 es
termination_by es => 1 + sizeOf e + sizeOf es
decreasing_by all_goals (simp_wf <;> omega)

/-- Comma-separated `repr`s of dict items. -/
def pyReprFields (k : String) (v : JValue) : List (String × JValue) → String
  | [] => String.singleton (Char.ofNat 39) ++ k ++ String.singleton (Char.ofNat 39) ++
      ": " ++ pyReprJValue v
  | (k2, v2) :: fs =>
      String.singleton (Char.ofNat 39) ++ k ++ String.singleton (Char.ofNat 39) ++
        ": " ++ pyReprJValue v ++ ", " ++ pyReprFields k2 v2 fs
termination_by fs => 1 + sizeOf v + sizeOf fs
decreasing_by all_goals (simp_wf <;> omega)

end

/-- The line `print(x)` writes for a value returned by a client method:
a `str` is printed verbatim, any other value through `str()` (which for a
decoded JSON string at top level is the string itself). -/
def pyPrintValue : RetVal → String
  | .vstr s => s
  | .vjson (.str s) => s
  | .vjson v => pyReprJValue v

/-- Observable end of a shell run: the lines printed on normal
termination, or an uncaught fault (parse error, `KeyError`, `EOFError`). -/
inductive MainOutcome : Type where
  | ok : List String → MainOutcome
  | fault : MainOutcome
  deriving DecidableEq

/-- Observable behaviour of one shell run: every URL passed to
`requests.get`, in order, and how the run ended. -/
structure RunTrace where
  requests : List String
  outcome : MainOutcome
  deriving DecidableEq

/-- Package a client call as the rest of a shell run: its one request,
then `print` of the result, or the uncaught exception. -/
def traceOfCall (out : CallOutput) : RunTrace :=
  { requests := [out.request],
    outcome :=
      match out.outcome with
      | .ret v => .ok [pyPrintValue v]
      | .fault => .fault }

/-- Accumulating pass of `pySplitChar`: `cur` holds the current piece,
reversed. -/
def pySplitGo (sep : Char) (cur : List Char) : List Char → List String
  | [] => [String.mk cur.reverse]
  | c :: cs =>
      if c = sep then String.mk cur.reverse :: pySplitGo sep [] cs
      else pySplitGo sep (c :: cur) cs

/-- Python `str.split(sep)` for a one-character separator, as the date
prompt uses with `'-'`: the pieces between occurrences of `sep`, empty
pieces kept. -/
def pySplitChar (sep : Char) (l : List Char) : List String :=
  pySplitGo sep [] l

/-- The `main()` entry point of `src/main.py`.

`token` and `apiUrl` stand for the configuration values `api.TOKEN_KEY`
and `api.API_URL`; `stdin` is the sequence of answers `input()` returns
(an exhausted list models the `EOFError` `input()` raises at end of
input); `resp` is the response the backend serves the single GET that a
run performs. -/
def mainRun (token apiUrl : String) (stdin : List String) (resp : Response) : RunTrace :=
  let exchanger := CurrencyExchange.init token apiUrl
  match stdin with
  | [] => { requests := [], outcome := .fault }
  | menu :: rest =>
    match pyIntParse menu with
    | none => { requests := [], outcome := .fault }
    | some user_input =>
      if user_input = 1 then
        match rest with
        | currency :: _ => traceOfCall (exchanger.get_ex_rates currency resp)
        | [] => { requests := [], outcome := .fault }
      else if user_input = 2 then
        match rest with
        | currency_from :: currency_to :: _ =>
            traceOfCall
              (exchanger.get_ex_rate_for_currencies currency_from currency_to resp)
        | _ => { requests := [], outcome := .fault }
      else if user_input = 3 then
        match rest with
        | currency_from :: currency_to :: amount :: _ =>
            match pyFloatParse amount with
            | some f =>
                traceOfCall (exchanger.exchange_from_to currency_from currency_to f resp)
            | none => { requests := [], outcome := .fault }
        | _ => { requests := [], outcome := .fault }
      else if user_input = 4 then
        match rest with
        | currency :: dateStr :: _ =>
            match pySplitChar '-' dateStr.data with
            | [y, m, d] =>
                match pyIntParse y, pyIntParse m, pyIntParse d with
                | some yi, some mi, some di =>
                    traceOfCall
                      (exchanger.get_ex_rates_at_specific_date currency yi mi di resp)
                | _, _, _ => { requests := [], outcome := .fault }
            | _ => { requests := [], outcome := .fault }
        | _ => { requests := [], outcome := .fault }
      else { requests := [], outcome := .ok ["Invalid input"] }

/-! ## Helper lemmas -/

/-- `toString` on a `String` is the identity (used to normalise the
f-string interpolations). -/
theorem toString_string (s : String) : toString s = s := rfl

/-- Every client method ends with `self` exactly as it started: no method
body of `CurrencyExchange` assigns any attribute. -/
theorem runCall_client (c : CurrencyExchange) (k : OpCall) : (runCall c k).client = c := by
  cases k <;> rfl

/-- Concrete evaluation of the indented serializer on the spec's example
object. -/
theorem dumps_conversion_rates_example :
    pyJsonDumpsIndent2 (.obj [("EUR", .num "0.9")]) = "\x7b\n  \"EUR\": 0.9\n\x7d" := by
  simp only [pyJsonDumpsIndent2, jsonDumps2, jsonDumpsFields, jsonQuote, jsonEscapeChar]
  rfl

/-! ## Claims -/

/-- C1 (code bug): in a shell run that selects option 2 and enters source
currency `USD` at the first prompt and target `EUR` at the second, the
request issued is `{baseURL}{token}/pair/EUR/USD` — target first — not
`pair/USD/EUR` as the spec states: `main` passes `currency_from` into the
`convert_to` parameter of `get_ex_rate_for_currencies`, whose URL puts
`convert_from` (here the second prompt's answer) first. -/
theorem c1_pair_request_swapped (token apiUrl : String) (resp : Response) :
    (mainRun token apiUrl ["2", "USD", "EUR"] resp).requests
        = [apiUrl ++ token ++ "/pair/EUR/USD"]
    ∧ (mainRun "T" "U/" ["2", "USD", "EUR"] ⟨200, none⟩).requests
        ≠ ["U/T/pair/USD/EUR"] := by
  constructor
  · simp [mainRun, show pyIntParse "2" = some (2 : Int) from rfl, traceOfCall,
      CurrencyExchange.get_ex_rate_for_currencies, CurrencyExchange.init,
      toString_string, String.append_assoc]
  · decide

/-- C2: for every client operation and every response whose status code is
not 200, the operation returns exactly
`"Request error with status code: S"`, whatever the body holds. -/
theorem c2_non200_error_string (c : CurrencyExchange) (resp : Response)
    (h : resp.status_code ≠ 200) (cur ct cf a b : String) (amt : PyFloat) (y m d : Int) :
    (c.get_ex_rates cur resp).outcome
        = .ret (.vstr ("Request error with status code: " ++ toString resp.status_code))
    ∧ (c.get_ex_rate_for_currencies ct cf resp).outcome
        = .ret (.vstr ("Request error with status code: " ++ toString resp.status_code))
    ∧ (c.exchange_from_to a b amt resp).outcome
        = .ret (.vstr ("Request error with status code: " ++ toString resp.status_code))
    ∧ (c.get_ex_rates_at_specific_date cur y m d resp).outcome
        = .ret (.vstr ("Request error with status code: " ++ toString resp.status_code)) := by
  refine ⟨?_, ?_, ?_, ?_⟩ <;>
    simp [CurrencyExchange.get_ex_rates, CurrencyExchange.get_ex_rate_for_currencies,
      CurrencyExchange.exchange_from_to, CurrencyExchange.get_ex_rates_at_specific_date,
      h, toString_string]

/-- Witness for C2 at status 404. -/
theorem c2_non200_error_string_witness :
    ((CurrencyExchange.init "T" "U").get_ex_rates "USD" ⟨404, none⟩).outcome
      = .ret (.vstr "Request error with status code: 404") :=
  (c2_non200_error_string (CurrencyExchange.init "T" "U") ⟨404, none⟩ (by decide)
    "USD" "A" "B" "A" "B" ⟨"1.0"⟩ 1 1 1).1

/-- C3: on a 200 response whose JSON body has a `conversion_rates` member,
the latest-rates operation returns exactly that member serialized with
`json.dumps(..., indent=2)`. -/
theorem c3_latest_rates_dumps (c : CurrencyExchange) (currency : String)
    (resp : Response) (fields : List (String × JValue)) (v : JValue)
    (h200 : resp.status_code = 200)
    (hbody : resp.jsonBody = some (.obj fields))
    (hfield : jlookup "conversion_rates" fields = some v) :
    (c.get_ex_rates currency resp).outcome = .ret (.vstr (pyJsonDumpsIndent2 v)) := by
  simp [CurrencyExchange.get_ex_rates, h200, jsonField, hbody, hfield]

/-- Witness for C3: body `{"conversion_rates": {"EUR": 0.9}}` yields the
exact indented text of `{"EUR": 0.9}`. -/
theorem c3_latest_rates_dumps_witness :
    ((CurrencyExchange.init "T" "U").get_ex_rates "USD"
        ⟨200, some (.obj [("conversion_rates", .obj [("EUR", .num "0.9")])])⟩).outcome
      = .ret (.vstr "\x7b\n  \"EUR\": 0.9\n\x7d") := by
  rw [c3_latest_rates_dumps (CurrencyExchange.init "T" "U") "USD"
    ⟨200, some (.obj [("conversion_rates", .obj [("EUR", .num "0.9")])])⟩
    [("conversion_rates", .obj [("EUR", .num "0.9")])]
    (.obj [("EUR", .num "0.9")]) rfl rfl rfl, dumps_conversion_rates_example]

/-- C4: an integer menu selector outside `{1, 2, 3, 4}` makes the shell
print exactly `Invalid input`, issue no request, and end without fault. -/
theorem c4_invalid_selector (token apiUrl menu : String) (rest : List String)
    (resp : Response) (n : Int)
    (hparse : pyIntParse menu = some n)
    (h1 : n ≠ 1) (h2 : n ≠ 2) (h3 : n ≠ 3) (h4 : n ≠ 4) :
    mainRun token apiUrl (menu :: rest) resp
      = { requests := [], outcome := .ok ["Invalid input"] } := by
  simp [mainRun, hparse, h1, h2, h3, h4]

/-- Witness for C4 at selector 5. -/
theorem c4_invalid_selector_witness :
    mainRun "T" "U" ["5"] ⟨200, none⟩
      = { requests := [], outcome := .ok ["Invalid input"] } :=
  c4_invalid_selector "T" "U" "5" [] ⟨200, none⟩ 5 rfl
    (by decide) (by decide) (by decide) (by decide)

/-- C5 counterexample: entering the amount `100` in option 3 issues the
request `.../pair/USD/EUR/100.0` — the interpolation of `float("100")` —
not `.../pair/USD/EUR/100` with the entered text itself, so the request
is not exactly `GET {baseURL}{token}/pair/{A}/{B}/{x}` for the entered
`x`. -/
theorem c5_entered_amount_counterexample :
    (mainRun "T" "U/" ["3", "USD", "EUR", "100"]
        ⟨200, some (.obj [("conversion_result", .num "91.4")])⟩).requests
      = ["U/T/pair/USD/EUR/100.0"]
    ∧ (mainRun "T" "U/" ["3", "USD", "EUR", "100"]
        ⟨200, some (.obj [("conversion_result", .num "91.4")])⟩).requests
      ≠ ["U/T/pair/USD/EUR/100"] := by
  constructor
  · rfl
  · decide

/-- C5 (amended): selecting option 3 with source `A`, target `B` and an
amount text parsing to the float `x` — the amount literal restricted to
`pyFloatLitSafe`, the range and precision on which the model's float
printing provably equals CPython's — issues exactly
`GET {baseURL}{token}/pair/{A}/{B}/{r}` where `r` is `str(x)`, and on a
200 response returns the numeric `conversion_result` field unchanged. -/
theorem c5_amended_conversion_request (token apiUrl A B xs : String) (f : PyFloat)
    (resp : Response) (_hsafe : pyFloatLitSafe xs = true)
    (hf : pyFloatParse xs = some f) :
    (mainRun token apiUrl ["3", A, B, xs] resp).requests
        = [apiUrl ++ token ++ "/pair/" ++ A ++ "/" ++ B ++ "/" ++ f.repr]
    ∧ ∀ (fields : List (String × JValue)) (lit : String),
        resp.status_code = 200 →
        resp.jsonBody = some (.obj fields) →
        jlookup "conversion_result" fields = some (.num lit) →
        (mainRun token apiUrl ["3", A, B, xs] resp).outcome = .ok [lit] := by
  constructor
  · simp [mainRun, show pyIntParse "3" = some (3 : Int) from rfl, hf, traceOfCall,
      CurrencyExchange.exchange_from_to, CurrencyExchange.init,
      toString_string, String.append_assoc]
  · intro fields lit h200 hbody hfield
    simp [mainRun, show pyIntParse "3" = some (3 : Int) from rfl, hf, traceOfCall,
      CurrencyExchange.exchange_from_to, CurrencyExchange.init,
      h200, jsonField, hbody, hfield, pyPrintValue, pyReprJValue]

/-- Witness for the amended C5: amount `100.5`, mocked
`{"conversion_result": 91.4}`, yields request `.../pair/USD/EUR/100.5`
and printed result `91.4`. -/
theorem c5_amended_conversion_request_witness :
    (mainRun "T" "U/" ["3", "USD", "EUR", "100.5"]
        ⟨200, some (.obj [("conversion_result", .num "91.4")])⟩).requests
      = ["U/T/pair/USD/EUR/100.5"]
    ∧ (mainRun "T" "U/" ["3", "USD", "EUR", "100.5"]
        ⟨200, some (.obj [("conversion_result", .num "91.4")])⟩).outcome
      = .ok ["91.4"] :=
  ⟨(c5_amended_conversion_request "T" "U/" "USD" "EUR" "100.5" ⟨"100.5"⟩
      ⟨200, some (.obj [("conversion_result", .num "91.4")])⟩ rfl rfl).1,
   (c5_amended_conversion_request "T" "U/" "USD" "EUR" "100.5" ⟨"100.5"⟩
      ⟨200, some (.obj [("conversion_result", .num "91.4")])⟩ rfl rfl).2
     [("conversion_result", .num "91.4")] "91.4" rfl rfl rfl⟩

/-- C6: the historical-rates operation requests exactly
`{baseURL}{token}/history/{currency}/{year}/{month}/{day}` with the
integer components rendered by `str` (no zero-padding); in particular
`(2023, 5, 17)` with currency `USD` gives the segments
`history/USD/2023/5/17`. -/
theorem c6_history_path_segments (c : CurrencyExchange) (currency : String)
    (y m d : Int) (resp : Response) :
    (c.get_ex_rates_at_specific_date currency y m d resp).request
        = c.url ++ c.token ++ "/history/" ++ currency ++ "/" ++ toString y ++ "/"
            ++ toString m ++ "/" ++ toString d
    ∧ ((CurrencyExchange.init "T" "U/").get_ex_rates_at_specific_date
          "USD" 2023 5 17 ⟨200, none⟩).request
        = "U/T/history/USD/2023/5/17" := by
  constructor
  · simp [CurrencyExchange.get_ex_rates_at_specific_date, toString_string,
      String.append_assoc]
  · rfl

/-- C7: every operation leaves the client exactly as constructed — its
token and base URL in particular — and no state accumulates over any
sequence of calls. -/
theorem c7_client_state_immutable (c : CurrencyExchange) (k : OpCall)
    (calls : List OpCall) :
    (runCall c k).client.token = c.token
    ∧ (runCall c k).client.url = c.url
    ∧ (runCall c k).client = c
    ∧ List.foldl (fun st k2 => (runCall st k2).client) c calls = c := by
  refine ⟨by rw [runCall_client], by rw [runCall_client], runCall_client c k, ?_⟩
  induction calls with
  | nil => rfl
  | cons k2 ks ih => rw [List.foldl_cons, runCall_client]; exact ih

/-- C8: running the same operation twice, the second time from the client
state the first call left behind, against the same backend response,
produces an identical call output — same request, same result. -/
theorem c8_repeat_call_identical (c : CurrencyExchange) (k : OpCall) :
    runCall ((runCall c k).client) k = runCall c k := by
  rw [runCall_client]

/-- C9: a date answer in option 4 that does not split on `-` into exactly
three parts, or has a part `int` rejects, and an amount answer in
option 3 that `float` rejects, each end the run in an uncaught fault with
no request issued (so no error string is returned either). -/
theorem c9_malformed_input_faults (token apiUrl : String) (resp : Response) :
    (∀ currency ds : String,
      ((pySplitChar '-' ds.data).length ≠ 3
          ∨ ∃ p ∈ pySplitChar '-' ds.data, pyIntParse p = none) →
      mainRun token apiUrl ["4", currency, ds] resp
        = { requests := [], outcome := .fault })
    ∧ (∀ cf ct amt : String, pyFloatParse amt = none →
      mainRun token apiUrl ["3", cf, ct, amt] resp
        = { requests := [], outcome := .fault }) := by
  constructor
  · intro currency ds h
    simp only [mainRun, show pyIntParse "4" = some (4 : Int) from rfl]
    norm_num
    rcases hsplit : pySplitChar '-' ds.data with _ | ⟨a, rest1⟩
    · rfl
    rcases rest1 with _ | ⟨b, rest2⟩
    · rfl
    rcases rest2 with _ | ⟨c, rest3⟩
    · rfl
    rcases rest3 with _ | ⟨d, l⟩
    · rcases h with hlen | ⟨p, hp, hnone⟩
      · exact absurd (by rw [hsplit]; rfl) hlen
      · rw [hsplit] at hp
        simp only [List.mem_cons, List.not_mem_nil, or_false] at hp
        rcases hp with rfl | rfl | rfl
        · simp [hnone]
        · cases hA : pyIntParse a <;> simp [hA, hnone]
        · cases hA : pyIntParse a <;> cases hB : pyIntParse b <;>
            simp [hA, hB, hnone]
    · rfl
  · intro cf ct amt hnone
    simp [mainRun, show pyIntParse "3" = some (3 : Int) from rfl, hnone]

/-- Witness for C9: date `2023-05` (two parts) and amount `abc` both
fault without a request. -/
theorem c9_malformed_input_faults_witness :
    mainRun "T" "U" ["4", "USD", "2023-05"] ⟨200, none⟩
      = { requests := [], outcome := .fault }
    ∧ mainRun "T" "U" ["3", "USD", "EUR", "abc"] ⟨200, none⟩
      = { requests := [], outcome := .fault } :=
  ⟨(c9_malformed_input_faults "T" "U" ⟨200, none⟩).1 "USD" "2023-05"
      (Or.inl (by decide)),
   (c9_malformed_input_faults "T" "U" ⟨200, none⟩).2 "USD" "EUR" "abc" rfl⟩

/-- C10: on a 200 response whose JSON object body lacks the field an
operation extracts, the operation does not produce the error string — the
missing-key lookup is an uncaught fault. -/
theorem c10_missing_field_faults (c : CurrencyExchange) (resp : Response)
    (fields : List (String × JValue))
    (h200 : resp.status_code = 200) (hbody : resp.jsonBody = some (.obj fields)) :
    (jlookup "conversion_rates" fields = none →
      ∀ currency : String, (c.get_ex_rates currency resp).outcome = .fault)
    ∧ (jlookup "conversion_rate" fields = none →
      ∀ a b : String, (c.get_ex_rate_for_currencies a b resp).outcome = .fault)
    ∧ (jlookup "conversion_result" fields = none →
      ∀ (a b : String) (f : PyFloat), (c.exchange_from_to a b f resp).outcome = .fault)
    ∧ (jlookup "conversion_rates" fields = none →
      ∀ (cur : String) (y m d : Int),
        (c.get_ex_rates_at_specific_date cur y m d resp).outcome = .fault) := by
  refine ⟨fun hmiss currency => ?_, fun hmiss a b => ?_, fun hmiss a b f => ?_,
    fun hmiss cur y m d => ?_⟩ <;>
    simp [CurrencyExchange.get_ex_rates, CurrencyExchange.get_ex_rate_for_currencies,
      CurrencyExchange.exchange_from_to, CurrencyExchange.get_ex_rates_at_specific_date,
      h200, jsonField, hbody, hmiss]

/-- Witness for C10: an empty JSON object body makes all four operations
fault. -/
theorem c10_missing_field_faults_witness :
    ((CurrencyExchange.init "T" "U").get_ex_rates "USD" ⟨200, some (.obj [])⟩).outcome
        = .fault
    ∧ ((CurrencyExchange.init "T" "U").get_ex_rate_for_currencies "USD" "EUR"
        ⟨200, some (.obj [])⟩).outcome = .fault
    ∧ ((CurrencyExchange.init "T" "U").exchange_from_to "USD" "EUR" ⟨"1.0"⟩
        ⟨200, some (.obj [])⟩).outcome = .fault
    ∧ ((CurrencyExchange.init "T" "U").get_ex_rates_at_specific_date "USD" 2023 5 17
        ⟨200, some (.obj [])⟩).outcome = .fault :=
  ⟨(c10_missing_field_faults (CurrencyExchange.init "T" "U") ⟨200, some (.obj [])⟩
      [] rfl rfl).1 rfl "USD",
   (c10_missing_field_faults (CurrencyExchange.init "T" "U") ⟨200, some (.obj [])⟩
      [] rfl rfl).2.1 rfl "USD" "EUR",
   (c10_missing_field_faults (CurrencyExchange.init "T" "U") ⟨200, some (.obj [])⟩
      [] rfl rfl).2.2.1 rfl "USD" "EUR" ⟨"1.0"⟩,
   (c10_missing_field_faults (CurrencyExchange.init "T" "U") ⟨200, some (.obj [])⟩
      [] rfl rfl).2.2.2 rfl "USD" 2023 5 17⟩
